import Mathlib

/-!
Verification of the event classification and dispatch core of
`useless_slack_utils` (`src/slackEventHandler.py`).

The Python class `SlackEventHandler` is embedded shallowly:
* Python dict-based events become an `EventMsg` structure with `Option String`
  fields; a missing key raises `KeyError`, modelled by `getField`.
* Python exceptions become the `PyErr` error type threaded through `Except`.
* Outbound Slack calls (`rtm_send_message`, the `*.mark` api calls) become
  values of the `Action` type collected by each behavior.
* The Slack client responses consumed by the handler (the `ok` field of
  `im.info` / `groups.info`, `conversations.members`, the bot username, giphy
  search results, the random indices drawn by `random.randint`) are supplied
  by an `Env` record, one per processed event.
-/

namespace UselessSlackUtils

/-- Python exception kinds that can escape the statements modelled here. -/
inductive PyErr where
  | keyError
  | attributeError
  | typeError
  | indexError
  | valueError
  | invalidFlagName
  | typeNotHandled
  deriving DecidableEq, Repr

/-- One inbound event dict (`event[0]` in the Python code).  Each field is
`none` when the corresponding key is missing from the dict. -/
structure EventMsg where
  type : Option String
  channel : Option String
  user : Option String
  text : Option String
  ts : Option String
  deriving DecidableEq, Repr

/-- Dict access `event[0][k]`: raises `KeyError` when the key is missing. -/
def getField (f : Option String) : Except PyErr String :=
  match f with
  | some v => Except.ok v
  | none => Except.error PyErr.keyError

/-- List indexing `event[0]`: raises `IndexError` on an empty list. -/
def get0 (event : List EventMsg) : Except PyErr EventMsg :=
  match event with
  | [] => Except.error PyErr.indexError
  | e :: _ => Except.ok e

/-- Outbound calls made by the behaviors. -/
inductive Action where
  | rtmSend (channel : Option String) (msg : String)
  | apiMark (method : String) (channel : String) (ts : String)
  deriving DecidableEq, Repr

/-- The `self.handler_flags` dict (fixed key set from `__init__`). -/
structure HandlerFlags where
  random_reply_flg : Bool
  random_gif_flg : Bool
  set_typing_flg : Bool
  mark_read_flg : Bool
  someones_talking_about_you_flg : Bool
  magic_eight_flg : Bool
  homophone_flg : Bool
  deriving DecidableEq, Repr

/-- `self.handler_flags.keys()`, in the insertion order of `__init__`. -/
def flagNames : List String :=
  ["random_reply_flg", "random_gif_flg", "set_typing_flg", "mark_read_flg",
   "someones_talking_about_you_flg", "magic_eight_flg", "homophone_flg"]

/-- `self.handler_flags[flag_name] = flag_value` for a recognized name
(unrecognized names leave the record unchanged; `update_flag` rejects them
before this assignment). -/
def setFlag (f : HandlerFlags) (name : String) (v : Bool) : HandlerFlags :=
  if name == "random_reply_flg" then { f with random_reply_flg := v }
  else if name == "random_gif_flg" then { f with random_gif_flg := v }
  else if name == "set_typing_flg" then { f with set_typing_flg := v }
  else if name == "mark_read_flg" then { f with mark_read_flg := v }
  else if name == "someones_talking_about_you_flg" then
    { f with someones_talking_about_you_flg := v }
  else if name == "magic_eight_flg" then { f with magic_eight_flg := v }
  else if name == "homophone_flg" then { f with homophone_flg := v }
  else f

/-- The mutable state of a `SlackEventHandler` instance.  `users` is `none`
when the constructor was given neither a user list nor the sentinel `'All'`
(in which case Python stores `None`); the `'All'` expansion performed in
`__init__` yields a concrete list, so it is also covered by `some`. -/
structure SlackEventHandler where
  handler_flags : HandlerFlags
  run_level : String
  users : Option (List String)
  responses : List String
  stay_channel : Option String
  homophones : Option (List (String × String))
  deriving DecidableEq, Repr

/-- Modelled from the spec: the default homophone table shipped with the
repository lives in a data file outside `src/`; the spec only exhibits the
entry mapping "there" to "their".  Used as a stand-in for the default table
returned by `load_homophones()` with no argument. -/
def default_homophones : List (String × String) :=
  [("there", "their"), ("their", "there")]

/-- Modelled from the spec: `load_homophones` (in `src/misc_utils.py`, not
under `src/`) returns the homophone table, using the supplied override
dictionary when one is given and the default table otherwise. -/
def load_homophones (init : Option (List (String × String))) :
    List (String × String) :=
  match init with
  | some d => d
  | none => default_homophones

/-- `SlackEventHandler.update_flag`.  Returns the raised exception (if any)
together with the post-call state; the Python code mutates nothing before an
`InvalidFlagNameException` is raised, so on error the state is unchanged. -/
def update_flag (h : SlackEventHandler) (flag_name : String) (flag_value : Bool) :
    Option PyErr × SlackEventHandler :=
  if flag_name ∉ flagNames then (some PyErr.invalidFlagName, h)
  else if flag_name == "homophone_flg" && flag_value then
    (none, { h with homophones := some (load_homophones none),
                    handler_flags := setFlag h.handler_flags flag_name flag_value })
  else
    (none, { h with homophones := none,
                    handler_flags := setFlag h.handler_flags flag_name flag_value })

/-- The dynamic type of the argument of `add_responses`. -/
inductive StrOrList where
  | str (s : String)
  | list (l : List String)
  | other
  deriving DecidableEq, Repr

/-- `SlackEventHandler.add_responses`.  A single string is appended only when
absent; a string that is already present falls through both branches of the
`if`/`elif` and raises `TypeNotHandledException` (state unchanged).  A list is
concatenated and then deduplicated via `list(set(...))`, modelled by
`List.dedup` (Python's set order is unspecified; only the set of elements is
observable through the claims). -/
def add_responses (h : SlackEventHandler) (new_responses : StrOrList) :
    Option PyErr × SlackEventHandler :=
  match new_responses with
  | StrOrList.str s =>
    if s ∉ h.responses then (none, { h with responses := h.responses ++ [s] })
    else (some PyErr.typeNotHandled, h)
  | StrOrList.list l => (none, { h with responses := (h.responses ++ l).dedup })
  | StrOrList.other => (some PyErr.typeNotHandled, h)

/-- A user record from the `users.list` snapshot built at the top of `begin`
(only users with both profile names populated are kept). -/
structure DirUser where
  name : String
  id : String
  first_name : String
  last_name : String
  deriving DecidableEq, Repr

/-- The collaborator responses consumed while handling one event:
`im_info_ok` / `groups_info_ok` are the `ok` fields of the `im.info` and
`groups.info` responses (`none` when the key is absent), `convo_members` the
`members` field of `conversations.members`, `bot_username`
`sc.server.username`, `giphy` the search-result lists of `giphypop`, and
`randIdx` / `randIdx8` the values drawn by `random.randint` in `random_reply`
and `magic_eight`. -/
structure Env where
  im_info_ok : Option Bool
  groups_info_ok : Option Bool
  convo_members : List String
  bot_username : String
  giphy : String → List String
  randIdx : Nat
  randIdx8 : Nat

/-- `p` is an initial segment of `l` (on characters). -/
def startsWithChars (p l : List Char) : Bool :=
  match p, l with
  | [], _ => true
  | _ :: _, [] => false
  | a :: ps, b :: ls => a == b && startsWithChars ps ls

/-- `p` occurs contiguously somewhere inside `l` (on characters). -/
def hasSubChars (l p : List Char) : Bool :=
  match l with
  | [] => p.isEmpty
  | _ :: tail => startsWithChars p l || hasSubChars tail p

/-- Boolean substring test underlying `find_element_in_string`. -/
def containsStr (s sub : String) : Bool :=
  hasSubChars s.toList sub.toList

/-- Modelled from the spec: `find_element_in_string` (in `src/str_utils.py`,
not under `src/`) reports where `elem` occurs in `s`, with `-1` meaning "not
found".  Every call site in `slackEventHandler.py` only compares the result
with `-1` (or `>= 0`), so the found position is modelled as `0`. -/
def find_element_in_string (s elem : String) : Int :=
  if containsStr s elem then 0 else -1

/-- Characters removed by `strip_punctuation`. -/
def punctuationChars : List Char :=
  ['.', ',', '!', '?', ';', ':', '"', '(', ')', '[', ']', '-', '_']

/-- Modelled from the spec: `strip_punctuation` (in `src/str_utils.py`, not
under `src/`) strips punctuation from a token. -/
def strip_punctuation (s : String) : String :=
  String.mk (s.toList.filter (fun ch => !(punctuationChars.contains ch)))

/-- `'ok' in resp.keys() and resp['ok'] is False` — the "query reports
failure" test used twice in `get_msg_type`. -/
def reportsFail (ok : Option Bool) : Bool :=
  ok == some false

/-- The scope `get_msg_type` computes from the two metadata responses. -/
def classify_scope (env : Env) : String :=
  if reportsFail env.im_info_ok then
    if reportsFail env.groups_info_ok then "Public" else "Private"
  else "IM"

/-- The api methods `get_msg_type` invokes, in call order. -/
def scope_queries (env : Env) : List String :=
  if reportsFail env.im_info_ok then ["im.info", "groups.info"] else ["im.info"]

/-- `SlackEventHandler.get_msg_type`.  Returns the list of metadata queries
issued (in order) together with the computed scope; accessing
`event[0]['channel']` can raise `KeyError`. -/
def get_msg_type (env : Env) (event : List EventMsg) :
    Except PyErr (List String × String) := do
  let e ← get0 event
  let _ch ← getField e.channel
  if reportsFail env.im_info_ok then
    if reportsFail env.groups_info_ok then
      Except.ok (["im.info", "groups.info"], "Public")
    else
      Except.ok (["im.info", "groups.info"], "Private")
  else
    Except.ok (["im.info"], "IM")

/-- The run-level gate of `begin` (lines 174-176 of the source). -/
def gate (run_level msg_type : String) : Bool :=
  (run_level == "DM Only" && msg_type == "IM") ||
  (run_level == "Private" && msg_type != "Public") ||
  run_level == "All"

/-- Membership `u in users` on the Python value stored in `self.users`:
testing membership in `None` raises `TypeError`. -/
def pyMem (u : String) (users : Option (List String)) : Except PyErr Bool :=
  match users with
  | none => Except.error PyErr.typeError
  | some l => Except.ok (u ∈ l)

/-- The `try ... except KeyError:` block shared by all five behaviors: a
`KeyError` is swallowed when `'type'` is missing from `event[0]` and re-raised
otherwise; evaluating `event[0].keys()` inside the handler would itself raise
`IndexError` on an empty event list.  Every other exception passes through. -/
def catchKE (event : List EventMsg) (body : Except PyErr (List Action)) :
    Except PyErr (List Action) :=
  match body with
  | Except.error PyErr.keyError =>
    match event with
    | e :: _ =>
      if e.type.isSome then Except.error PyErr.keyError else Except.ok []
    | [] => Except.error PyErr.indexError
  | r => r

/-- `SlackEventHandler.random_reply`.  `randint(0, len(responses) - 1)` is
modelled by `env.randIdx % responses.length` (and raises `ValueError` when the
pool is empty, as `randint(0, -1)` does); the giphy search of the gif variant
raises `IndexError` when it returns no result. -/
def random_reply (h : SlackEventHandler) (env : Env) (event : List EventMsg) :
    Except PyErr (List Action) :=
  catchKE event (
    match event with
    | [] => Except.ok []
    | e :: _ => do
      let ty ← getField e.type
      if ty == "message" then do
        let u ← getField e.user
        let mem ← pyMem u h.users
        if mem then do
          if h.responses.isEmpty then Except.error PyErr.valueError else do
          let msg := h.responses.getD (env.randIdx % h.responses.length) ""
          let msg2 ← if h.handler_flags.random_gif_flg then
              match env.giphy msg with
              | [] => Except.error PyErr.indexError
              | v :: _ => Except.ok (msg ++ "\n" ++ v)
            else Except.ok msg
          let ch ← getField e.channel
          Except.ok [Action.rtmSend (some ch) msg2]
        else Except.ok []
      else Except.ok [])

/-- The scope-appropriate mark api method chosen by `mark_read`. -/
def markMethod (msg_type : String) : String :=
  if msg_type == "IM" then "im.mark"
  else if msg_type == "Private" then "groups.mark"
  else "channels.mark"

/-- `SlackEventHandler.mark_read`. -/
def mark_read (env : Env) (event : List EventMsg) (msg_type : String) :
    Except PyErr (List Action) :=
  catchKE event (do
    let e ← get0 event
    let ty ← getField e.type
    if ty == "message" then do
      let text ← getField e.text
      if find_element_in_string text "<" != -1 &&
          find_element_in_string text ">" != -1 &&
          find_element_in_string text env.bot_username == -1 then do
        let ch ← getField e.channel
        let ts ← getField e.ts
        Except.ok [Action.apiMark (markMethod msg_type) ch ts]
      else Except.ok []
    else Except.ok [])

/-- The users whose lowercased "first last" full name occurs in the lowercased
message text (the accumulation loop of `someones_talking_about_you`). -/
def matched_users (all_users : List DirUser) (text : String) : List DirUser :=
  all_users.filter (fun du =>
    find_element_in_string text.toLower
      (du.first_name.toLower ++ " " ++ du.last_name.toLower) != -1)

/-- The notification text composed by `someones_talking_about_you` (the
literal indentation whitespace of the Python triple-quoted string is
elided). -/
def notify_message (user_ids members : List String) (sender text : String) :
    String :=
  "Hey <@" ++ String.intercalate "> <@" user_ids ++ ">\n<@" ++
    String.intercalate "> <@" members ++
    "> were talking about you in a private message!\nHere\x27s what <@" ++
    sender ++ "> said:\n" ++ text

/-- `SlackEventHandler.someones_talking_about_you`. -/
def someones_talking_about_you (h : SlackEventHandler) (env : Env)
    (event : List EventMsg) (msg_type : String) (all_users : List DirUser) :
    Except PyErr (List Action) :=
  catchKE event (do
    let e ← get0 event
    let ty ← getField e.type
    if ty == "message" && msg_type != "Public" then do
      let text ← getField e.text
      let users_to_notify := matched_users all_users text
      if users_to_notify.length > 0 then do
        let user_ids := users_to_notify.map (fun du => du.id)
        let _ch ← getField e.channel
        let not_all_users_in_convo :=
          user_ids.any (fun u => !(env.convo_members.contains u))
        if not_all_users_in_convo then do
          let sender ← getField e.user
          Except.ok [Action.rtmSend h.stay_channel
            (notify_message user_ids env.convo_members sender text)]
        else Except.ok []
      else Except.ok []
    else Except.ok [])

/-- `SlackEventHandler.magic_eight`.  `randint(0, 10)` is modelled by
`env.randIdx8 % 11`; indexing past the end of the giphy results raises
`IndexError`. -/
def magic_eight (h : SlackEventHandler) (env : Env) (event : List EventMsg) :
    Except PyErr (List Action) :=
  catchKE event (
    match event with
    | [] => Except.ok []
    | e :: _ => do
      let ty ← getField e.type
      if ty == "message" then do
        let u ← getField e.user
        let mem ← pyMem u h.users
        if mem then do
          let text ← getField e.text
          if find_element_in_string text "?" >= 0 then
            match (env.giphy "magic eight ball").get? (env.randIdx8 % 11) with
            | none => Except.error PyErr.indexError
            | some v => do
              let ch ← getField e.channel
              Except.ok [Action.rtmSend (some ch) (v ++ "\n")]
          else Except.ok []
        else Except.ok []
      else Except.ok [])

/-- Dict lookup `self.homophones[word]` on a loaded table. -/
def dictGet (tbl : List (String × String)) (k : String) : Except PyErr String :=
  match tbl.lookup k with
  | some v => Except.ok v
  | none => Except.error PyErr.keyError

/-- The per-word suggestion message of `homophone_suggest`. -/
def homophone_message (u word v : String) : String :=
  "Hey <@" ++ u ++ ">!\n\tYou typed " ++ word ++
    ", but you probably meant " ++ v ++ "."

/-- `SlackEventHandler.homophone_suggest`.  When `self.homophones` is `None`,
the membership test `strip_punctuation(word) in self.homophones.keys()` raises
`AttributeError`; it is evaluated at least once because `str.split(' ')`
always yields a non-empty list.  The sender and channel are read inside the
per-word loop in Python; hoisting them is observable only when the filtered
word list is non-empty, which the model preserves. -/
def homophone_suggest (h : SlackEventHandler) (event : List EventMsg) :
    Except PyErr (List Action) :=
  catchKE event (do
    let e ← get0 event
    let text ← getField e.text
    match h.homophones with
    | none => Except.error PyErr.attributeError
    | some tbl => do
      let text_words :=
        ((text.toLower.splitOn " ").map strip_punctuation).filter
          (fun w => (tbl.map Prod.fst).contains w)
      if text_words.isEmpty then Except.ok []
      else do
        let u ← getField e.user
        let ch ← getField e.channel
        text_words.mapM (fun w => do
          let v ← dictGet tbl w
          pure (Action.rtmSend (some ch) (homophone_message u w v))))

/-- The sequence of behavior invocations guarded by the handler flags (lines
179-188 of the source); an exception raised by one behavior aborts the
sequence.  This `Except` composition records the escaping exception and the
complete call list of exception-free iterations; it does not record calls
already issued before a later behavior's exception — for that effect trace
see `run_behaviors_trace` below, which agrees with this composition on
exception-free iterations (`run_behaviors_trace_ok`). -/
def run_behaviors (h : SlackEventHandler) (env : Env) (event : List EventMsg)
    (msg_type : String) (all_users : List DirUser) :
    Except PyErr (List Action) :=
  (if h.handler_flags.random_reply_flg then random_reply h env event
    else Except.ok []) >>= fun a1 =>
  (if h.handler_flags.mark_read_flg then mark_read env event msg_type
    else Except.ok []) >>= fun a2 =>
  (if h.handler_flags.someones_talking_about_you_flg then
      someones_talking_about_you h env event msg_type all_users
    else Except.ok []) >>= fun a3 =>
  (if h.handler_flags.magic_eight_flg then magic_eight h env event
    else Except.ok []) >>= fun a4 =>
  (if h.handler_flags.homophone_flg then homophone_suggest h event
    else Except.ok []) >>= fun a5 =>
  Except.ok (a1 ++ a2 ++ a3 ++ a4 ++ a5)

/-- The `except KeyError:` handler of the event loop (lines 193-194): it
swallows a `KeyError` escaping the dispatch of one event and lets every other
exception propagate. -/
def catch_loop_keyerror (r : Except PyErr (List Action)) :
    Except PyErr (List Action) :=
  match r with
  | Except.error PyErr.keyError => Except.ok []
  | r => r

/-- One iteration of the event loop body of `begin` (lines 167-194): an empty
poll is skipped, otherwise the scope is classified, the run-level gate applied
and the enabled behaviors dispatched.  The result collects the outbound calls
of the iteration, or the exception that escapes it. -/
def handle_event (h : SlackEventHandler) (env : Env) (event : List EventMsg)
    (all_users : List DirUser) : Except PyErr (List Action) :=
  catch_loop_keyerror (
    match event with
    | [] => Except.ok []
    | _ :: _ => do
      let mt ← get_msg_type env event
      if gate h.run_level mt.2 then run_behaviors h env event mt.2 all_users
      else Except.ok [])

/-- Outcome of a call to `begin`: the connection attempt failed (silent
return), the loop ran to its deadline, or an uncaught exception escaped. -/
inductive BeginResult where
  | notConnected
  | completed (actions : List (List Action))
  | crashed (actions : List (List Action)) (err : PyErr)
  deriving DecidableEq, Repr

/-- The monitoring loop of `begin`, processing a finite schedule of polls
(each poll is the possibly-empty list returned by `rtm_read`); the schedule
ending models the deadline elapsing. -/
def run_loop (h : SlackEventHandler) (env : Env) (all_users : List DirUser) :
    List (List EventMsg) → BeginResult
  | [] => BeginResult.completed []
  | ev :: rest =>
    match handle_event h env ev all_users with
    | Except.ok acts =>
      match run_loop h env all_users rest with
      | BeginResult.completed later => BeginResult.completed (acts :: later)
      | BeginResult.crashed later er => BeginResult.crashed (acts :: later) er
      | BeginResult.notConnected => BeginResult.notConnected
    | Except.error er => BeginResult.crashed [] er

/-- `SlackEventHandler.begin`: when `sc.rtm_connect()` is falsy the body of
the `if` is skipped and the method returns `None` silently. -/
def begin (h : SlackEventHandler) (env : Env) (connected : Bool)
    (polls : List (List EventMsg)) (all_users : List DirUser) : BeginResult :=
  if connected then run_loop h env all_users polls else BeginResult.notConnected

/-- A `begin` outcome is visible to the caller as a failure exactly when an
exception escaped; both `notConnected` and `completed` return `None`. -/
def begin_raises : BeginResult → Bool
  | BeginResult.crashed _ _ => true
  | _ => false

/-- Whether a single behavior invocation returned normally. -/
def is_ok_step : Except PyErr (List Action) → Bool
  | Except.ok _ => true
  | Except.error _ => false

/-- The outbound calls of the successful steps of a dispatch prefix. -/
def collect_ok : List (Except PyErr (List Action)) → List Action
  | [] => []
  | Except.ok a :: rest => a ++ collect_ok rest
  | Except.error _ :: rest => collect_ok rest

/-- The five behavior invocations of lines 179-188, in dispatch order: each
entry is the behavior's outcome when its flag is set and `ok []` otherwise. -/
def behavior_steps (h : SlackEventHandler) (env : Env) (event : List EventMsg)
    (msg_type : String) (all_users : List DirUser) :
    List (Except PyErr (List Action)) :=
  [if h.handler_flags.random_reply_flg then random_reply h env event
     else Except.ok [],
   if h.handler_flags.mark_read_flg then mark_read env event msg_type
     else Except.ok [],
   if h.handler_flags.someones_talking_about_you_flg then
       someones_talking_about_you h env event msg_type all_users
     else Except.ok [],
   if h.handler_flags.magic_eight_flg then magic_eight h env event
     else Except.ok [],
   if h.handler_flags.homophone_flg then homophone_suggest h event
     else Except.ok []]

/-- Runs dispatch steps in order, keeping the outbound calls already issued
when a later step raises: Python does not roll back the api calls performed
by earlier behaviors of the same event.  A step that raises contributes no
calls of its own, matching the source: in every behavior, each dict access
that can raise `KeyError` is evaluated before the send/mark call it feeds. -/
def run_steps : List (Except PyErr (List Action)) → List Action × Option PyErr
  | [] => ([], none)
  | Except.error er :: _ => ([], some er)
  | Except.ok a :: rest =>
    match run_steps rest with
    | (acts, err) => (a ++ acts, err)

/-- The effect trace of the behavior sequence of lines 179-188: the calls
issued up to the first escaping exception, and that exception.  Unlike the
`Except` composition `run_behaviors`, which records only the escaping
exception, this rendering keeps the calls already issued before it. -/
def run_behaviors_trace (h : SlackEventHandler) (env : Env)
    (event : List EventMsg) (msg_type : String) (all_users : List DirUser) :
    List Action × Option PyErr :=
  run_steps (behavior_steps h env event msg_type all_users)

/-- The loop-level `except KeyError` (lines 193-194) on the effect trace: a
`KeyError` is swallowed, the calls already issued stand, and every other
exception keeps propagating. -/
def catch_loop_keyerror_trace (r : List Action × Option PyErr) :
    List Action × Option PyErr :=
  match r with
  | (acts, some PyErr.keyError) => (acts, none)
  | r => r

/-- Effect trace of one iteration of the event loop body (lines 167-194):
like `handle_event`, but also recording the outbound calls already issued
when an exception interrupts the behavior sequence. -/
def handle_event_trace (h : SlackEventHandler) (env : Env)
    (event : List EventMsg) (all_users : List DirUser) :
    List Action × Option PyErr :=
  catch_loop_keyerror_trace (
    match event with
    | [] => ([], none)
    | _ :: _ =>
      match get_msg_type env event with
      | Except.error er => ([], some er)
      | Except.ok mt =>
        if gate h.run_level mt.2 then
          run_behaviors_trace h env event mt.2 all_users
        else ([], none))

/-- The monitoring loop on effect traces; a crash keeps the per-poll calls,
including the partial calls of the crashing poll. -/
def run_loop_trace (h : SlackEventHandler) (env : Env)
    (all_users : List DirUser) : List (List EventMsg) → BeginResult
  | [] => BeginResult.completed []
  | ev :: rest =>
    match handle_event_trace h env ev all_users with
    | (acts, none) =>
      match run_loop_trace h env all_users rest with
      | BeginResult.completed later => BeginResult.completed (acts :: later)
      | BeginResult.crashed later er => BeginResult.crashed (acts :: later) er
      | BeginResult.notConnected => BeginResult.notConnected
    | (acts, some er) => BeginResult.crashed [acts] er

/-- The `Except` composition of a list of dispatch steps. -/
def seq_steps : List (Except PyErr (List Action)) → Except PyErr (List Action)
  | [] => Except.ok []
  | s :: rest =>
    s >>= fun a => seq_steps rest >>= fun acts => Except.ok (a ++ acts)

theorem exc_bind_ok {α β : Type} (a : α) (f : α → Except PyErr β) :
    (Except.ok a >>= f : Except PyErr β) = f a := rfl

theorem exc_bind_er {α β : Type} (er : PyErr) (f : α → Except PyErr β) :
    ((Except.error er : Except PyErr α) >>= f) = Except.error er := rfl

theorem find_bne_neg_one (s sub : String) :
    (find_element_in_string s sub != -1) = containsStr s sub := by
  unfold find_element_in_string
  cases hc : containsStr s sub <;> simp [hc]

theorem find_beq_neg_one (s sub : String) :
    (find_element_in_string s sub == -1) = !containsStr s sub := by
  unfold find_element_in_string
  cases hc : containsStr s sub <;> simp [hc]

theorem gate_all (mt : String) : gate "All" mt = true := by
  simp [gate]

theorem get_msg_type_ok (env : Env) (e : EventMsg) (tl : List EventMsg)
    (c : String) (hch : e.channel = some c) :
    get_msg_type env (e :: tl) =
      Except.ok (scope_queries env, classify_scope env) := by
  simp only [get_msg_type, get0, hch, getField, exc_bind_ok, classify_scope,
    scope_queries]
  cases him : reportsFail env.im_info_ok <;>
    cases hgr : reportsFail env.groups_info_ok <;> simp [him, hgr]

theorem handle_event_eq (h : SlackEventHandler) (env : Env) (e : EventMsg)
    (tl : List EventMsg) (all_users : List DirUser) (c : String)
    (hch : e.channel = some c) :
    handle_event h env (e :: tl) all_users =
      (if gate h.run_level (classify_scope env) then
        catch_loop_keyerror
          (run_behaviors h env (e :: tl) (classify_scope env) all_users)
      else Except.ok []) := by
  cases hg : gate h.run_level (classify_scope env) <;>
    simp [handle_event, get_msg_type_ok env e tl c hch, exc_bind_ok, hg,
      catch_loop_keyerror]

/-- C1: for every inbound event with resolved scope `s` and configured
run-level `r`, the dispatcher invokes the enabled behaviors iff
`(r = "DM Only" ∧ s = "IM") ∨ (r = "Private" ∧ s ≠ "Public") ∨ r = "All"`;
when the condition fails no behavior runs (no outbound call, no behavior
exception). -/
theorem dispatch_gate_spec (h : SlackEventHandler) (env : Env) (e : EventMsg)
    (tl : List EventMsg) (all_users : List DirUser) (c : String)
    (hch : e.channel = some c) :
    (gate h.run_level (classify_scope env) = true ↔
      (h.run_level = "DM Only" ∧ classify_scope env = "IM") ∨
      (h.run_level = "Private" ∧ classify_scope env ≠ "Public") ∨
      h.run_level = "All") ∧
    (gate h.run_level (classify_scope env) = false →
      handle_event h env (e :: tl) all_users = Except.ok []) ∧
    (gate h.run_level (classify_scope env) = true →
      handle_event h env (e :: tl) all_users =
        catch_loop_keyerror
          (run_behaviors h env (e :: tl) (classify_scope env) all_users)) := by
  refine ⟨?_, ?_, ?_⟩
  · simp [gate, Bool.or_eq_true, Bool.and_eq_true, beq_iff_eq, bne_iff_ne]
    tauto
  · intro hg
    rw [handle_event_eq h env e tl all_users c hch, hg]
    rfl
  · intro hg
    rw [handle_event_eq h env e tl all_users c hch, hg]
    rfl

/-- C2: for every channel ID, `get_msg_type` returns exactly one of `IM`,
`Private`, `Public`; it queries `im.info` first and returns `IM` unless that
query reports failure, only then queries `groups.info` and returns `Private`
unless that also reports failure, and returns `Public` exactly when both
report failure. -/
theorem get_msg_type_spec (env : Env) (e : EventMsg) (tl : List EventMsg)
    (c : String) (hch : e.channel = some c) :
    get_msg_type env (e :: tl) =
      Except.ok (scope_queries env, classify_scope env) ∧
    (classify_scope env = "IM" ∨ classify_scope env = "Private" ∨
      classify_scope env = "Public") ∧
    (classify_scope env = "IM" ↔ reportsFail env.im_info_ok = false) ∧
    (reportsFail env.im_info_ok = false → scope_queries env = ["im.info"]) ∧
    (reportsFail env.im_info_ok = true →
      scope_queries env = ["im.info", "groups.info"]) ∧
    (classify_scope env = "Private" ↔
      reportsFail env.im_info_ok = true ∧
        reportsFail env.groups_info_ok = false) ∧
    (classify_scope env = "Public" ↔
      reportsFail env.im_info_ok = true ∧
        reportsFail env.groups_info_ok = true) := by
  refine ⟨get_msg_type_ok env e tl c hch, ?_⟩
  unfold classify_scope scope_queries
  cases him : reportsFail env.im_info_ok <;>
    cases hgr : reportsFail env.groups_info_ok <;> simp [him, hgr]

/-- All behavior flags disabled (witness fixture). -/
def flagsOff : HandlerFlags :=
  { random_reply_flg := false, random_gif_flg := false,
    set_typing_flg := false, mark_read_flg := false,
    someones_talking_about_you_flg := false, magic_eight_flg := false,
    homophone_flg := false }

/-- A baseline handler state (witness fixture). -/
def hBase : SlackEventHandler :=
  { handler_flags := flagsOff, run_level := "All", users := some ["U1"],
    responses := ["ok"], stay_channel := some "NOTIFY", homophones := none }

/-- A baseline environment: both metadata queries succeed, so the channel
classifies as an IM (witness fixture). -/
def envBase : Env :=
  { im_info_ok := some true, groups_info_ok := some true, convo_members := [],
    bot_username := "slackbot", giphy := fun _ => [], randIdx := 0,
    randIdx8 := 0 }

/-- A well-formed message event (witness fixture). -/
def eBase : EventMsg :=
  { type := some "message", channel := some "C", user := some "U1",
    text := some "hello", ts := some "1" }

theorem dispatch_gate_spec_witness :
    eBase.channel = some "C" ∧
    ((gate hBase.run_level (classify_scope envBase) = true ↔
      (hBase.run_level = "DM Only" ∧ classify_scope envBase = "IM") ∨
      (hBase.run_level = "Private" ∧ classify_scope envBase ≠ "Public") ∨
      hBase.run_level = "All") ∧
    (gate hBase.run_level (classify_scope envBase) = false →
      handle_event hBase envBase [eBase] [] = Except.ok []) ∧
    (gate hBase.run_level (classify_scope envBase) = true →
      handle_event hBase envBase [eBase] [] =
        catch_loop_keyerror
          (run_behaviors hBase envBase [eBase] (classify_scope envBase) []))) :=
  ⟨rfl, dispatch_gate_spec hBase envBase eBase [] [] "C" rfl⟩

theorem get_msg_type_spec_witness :
    eBase.channel = some "C" ∧
    (get_msg_type envBase [eBase] =
      Except.ok (scope_queries envBase, classify_scope envBase) ∧
    (classify_scope envBase = "IM" ∨ classify_scope envBase = "Private" ∨
      classify_scope envBase = "Public") ∧
    (classify_scope envBase = "IM" ↔ reportsFail envBase.im_info_ok = false) ∧
    (reportsFail envBase.im_info_ok = false →
      scope_queries envBase = ["im.info"]) ∧
    (reportsFail envBase.im_info_ok = true →
      scope_queries envBase = ["im.info", "groups.info"]) ∧
    (classify_scope envBase = "Private" ↔
      reportsFail envBase.im_info_ok = true ∧
        reportsFail envBase.groups_info_ok = false) ∧
    (classify_scope envBase = "Public" ↔
      reportsFail envBase.im_info_ok = true ∧
        reportsFail envBase.groups_info_ok = true)) :=
  ⟨rfl, get_msg_type_spec envBase eBase [] "C" rfl⟩

theorem setFlag_homophone (f : HandlerFlags) (name : String) (v : Bool)
    (hnh : name ≠ "homophone_flg") :
    (setFlag f name v).homophone_flg = f.homophone_flg := by
  unfold setFlag
  split_ifs with h1 h2 h3 h4 h5 h6 h7
  any_goals rfl
  exact absurd (by simpa using h7) hnh

theorem update_flag_other (h : SlackEventHandler) (name : String) (v : Bool)
    (hn : name ∈ flagNames) (hnh : name ≠ "homophone_flg") :
    update_flag h name v =
      (none, { h with homophones := none,
                      handler_flags := setFlag h.handler_flags name v }) := by
  unfold update_flag
  rw [if_neg (by simp [hn])]
  rw [if_neg (by simp [hnh])]

/-- A handler with a loaded homophone table (fixture for C4 and C9). -/
def hHom : SlackEventHandler :=
  { handler_flags := { flagsOff with homophone_flg := true },
    run_level := "All", users := some ["U1"], responses := ["ok"],
    stay_channel := none, homophones := some [("there", "their")] }

/-- C4 counterexample: updating the recognized flag `set_typing_flg` does not
leave the homophone table unchanged — it clears a loaded table to `None`. -/
theorem update_flag_frame_counterexample :
    (update_flag hHom "set_typing_flg" true).2.homophones ≠ hHom.homophones := by
  decide

/-- C4 (amended): `update_flag` on a recognized flag name raises nothing and
(re)loads the homophone table iff it is called as
`update_flag "homophone_flg" true`; in every other case — `homophone_flg`
with a falsy value, or any other recognized flag with any value — it sets the
table to `None` (so updating another flag does not leave a loaded table
unchanged). -/
theorem update_flag_homophone_coupling (h : SlackEventHandler) (name : String)
    (v : Bool) (hn : name ∈ flagNames) :
    (update_flag h name v).1 = none ∧
    (update_flag h name v).2.homophones =
      (if name = "homophone_flg" ∧ v = true then some (load_homophones none)
       else none) := by
  unfold update_flag
  rw [if_neg (by simp [hn])]
  by_cases hb : name = "homophone_flg" ∧ v = true
  · rw [if_pos (by simp [hb.1, hb.2]), if_pos hb]
    exact ⟨rfl, rfl⟩
  · rw [if_neg (by simpa [Bool.and_eq_true, beq_iff_eq] using hb), if_neg hb]
    exact ⟨rfl, rfl⟩

theorem update_flag_homophone_coupling_witness :
    "set_typing_flg" ∈ flagNames ∧
    ((update_flag hHom "set_typing_flg" true).1 = none ∧
     (update_flag hHom "set_typing_flg" true).2.homophones =
       (if "set_typing_flg" = "homophone_flg" ∧ true = true then
          some (load_homophones none)
        else none)) :=
  ⟨by decide, update_flag_homophone_coupling hHom "set_typing_flg" true (by decide)⟩

/-- C5 counterexample: when the connection attempt fails, `begin` returns
silently — no loop runs, but no failure is raised to the caller either; the
outcome is observationally a normal `None` return. -/
theorem begin_silent_counterexample :
    begin hBase envBase false [[eBase]] [] = BeginResult.notConnected ∧
    begin_raises (begin hBase envBase false [[eBase]] []) = false :=
  ⟨rfl, rfl⟩

/-- C5 (amended): if the initial connection fails, `begin` never enters the
running event loop (no event is processed, no behavior runs) — but the
failure is not reported to its caller: `begin` returns silently, with no
exception raised. -/
theorem begin_no_connect (h : SlackEventHandler) (env : Env)
    (polls : List (List EventMsg)) (all_users : List DirUser) :
    begin h env false polls all_users = BeginResult.notConnected ∧
    begin_raises (begin h env false polls all_users) = false :=
  ⟨rfl, rfl⟩

/-- C8: adding a single string already present leaves the reply pool
unchanged (no duplicate is inserted), and adding a list of strings makes the
pool equal, as a set, to the deduplicated union of the old pool and that
list. -/
theorem add_responses_spec (h : SlackEventHandler) (s : String)
    (l : List String) (hs : s ∈ h.responses) :
    (add_responses h (StrOrList.str s)).2.responses = h.responses ∧
    (add_responses h (StrOrList.list l)).2.responses.toFinset =
      h.responses.toFinset ∪ l.toFinset := by
  constructor
  · simp [add_responses, hs]
  · ext a
    simp [add_responses, List.mem_dedup]

/-- A handler with a two-element reply pool (fixture for C8). -/
def hPool : SlackEventHandler := { hBase with responses := ["a", "b"] }

theorem add_responses_spec_witness :
    "a" ∈ hPool.responses ∧
    ((add_responses hPool (StrOrList.str "a")).2.responses = hPool.responses ∧
     (add_responses hPool (StrOrList.list ["b", "c"])).2.responses.toFinset =
       hPool.responses.toFinset ∪ (["b", "c"] : List String).toFinset) :=
  ⟨by decide, add_responses_spec hPool "a" ["b", "c"] (by decide)⟩

theorem mark_read_eq (env : Env) (e : EventMsg) (tl : List EventMsg)
    (mt t c ts : String) (hty : e.type = some "message") (htx : e.text = some t)
    (hch : e.channel = some c) (hts : e.ts = some ts) :
    mark_read env (e :: tl) mt =
      Except.ok
        (if containsStr t "<" && containsStr t ">" &&
            !containsStr t env.bot_username
         then [Action.apiMark (markMethod mt) c ts] else []) := by
  unfold mark_read
  simp only [get0, hty, htx, hch, hts, getField, exc_bind_ok, find_bne_neg_one,
    find_beq_neg_one]
  cases hcond : (containsStr t "<" && containsStr t ">" &&
      !containsStr t env.bot_username) <;>
    simp [hcond, catchKE]

/-- C6: for every well-formed `message` event, the mark-read behavior issues
a mark call iff the text contains `<` and `>` and does not contain the bot
username; when issued, the mark api method is chosen by scope (`IM` uses
`im.mark`, `Private` uses `groups.mark`, any other scope `channels.mark`)
with the event channel and timestamp; when the heuristic fails, no call is
issued. -/
theorem mark_read_spec (env : Env) (e : EventMsg) (tl : List EventMsg)
    (mt t c ts : String) (hty : e.type = some "message") (htx : e.text = some t)
    (hch : e.channel = some c) (hts : e.ts = some ts) :
    mark_read env (e :: tl) mt =
      Except.ok
        (if containsStr t "<" && containsStr t ">" &&
            !containsStr t env.bot_username
         then [Action.apiMark (markMethod mt) c ts] else []) ∧
    (mark_read env (e :: tl) mt ≠ Except.ok [] ↔
      containsStr t "<" = true ∧ containsStr t ">" = true ∧
        containsStr t env.bot_username = false) ∧
    markMethod "IM" = "im.mark" ∧
    markMethod "Private" = "groups.mark" ∧
    ∀ mt2 : String, mt2 ≠ "IM" → mt2 ≠ "Private" →
      markMethod mt2 = "channels.mark" := by
  have he := mark_read_eq env e tl mt t c ts hty htx hch hts
  refine ⟨he, ?_, rfl, rfl, ?_⟩
  · rw [he]
    cases hc1 : containsStr t "<" <;> cases hc2 : containsStr t ">" <;>
      cases hc3 : containsStr t env.bot_username <;> simp [hc1, hc2, hc3]
  · intro mt2 hne1 hne2
    simp [markMethod, hne1, hne2]

/-- A message event carrying a mention token (fixture for C6). -/
def eMark : EventMsg :=
  { type := some "message", channel := some "C", user := some "U1",
    text := some "hi <@U1> there", ts := some "42" }

theorem mark_read_spec_witness :
    eMark.type = some "message" ∧ eMark.text = some "hi <@U1> there" ∧
    eMark.channel = some "C" ∧ eMark.ts = some "42" ∧
    (mark_read envBase [eMark] "IM" =
      Except.ok
        (if containsStr "hi <@U1> there" "<" &&
            containsStr "hi <@U1> there" ">" &&
            !containsStr "hi <@U1> there" envBase.bot_username
         then [Action.apiMark (markMethod "IM") "C" "42"] else []) ∧
    (mark_read envBase [eMark] "IM" ≠ Except.ok [] ↔
      containsStr "hi <@U1> there" "<" = true ∧
        containsStr "hi <@U1> there" ">" = true ∧
        containsStr "hi <@U1> there" envBase.bot_username = false) ∧
    markMethod "IM" = "im.mark" ∧
    markMethod "Private" = "groups.mark" ∧
    ∀ mt2 : String, mt2 ≠ "IM" → mt2 ≠ "Private" →
      markMethod mt2 = "channels.mark") :=
  ⟨rfl, rfl, rfl, rfl,
    mark_read_spec envBase eMark [] "IM" "hi <@U1> there" "C" "42" rfl rfl rfl rfl⟩

theorem someones_eq (h : SlackEventHandler) (env : Env) (e : EventMsg)
    (tl : List EventMsg) (mt : String) (all_users : List DirUser)
    (t c u : String) (hty : e.type = some "message") (hmt : mt ≠ "Public")
    (htx : e.text = some t) (hch : e.channel = some c) (hus : e.user = some u) :
    someones_talking_about_you h env (e :: tl) mt all_users =
      Except.ok
        (if (matched_users all_users t).any
            (fun du => !(env.convo_members.contains du.id))
         then [Action.rtmSend h.stay_channel
            (notify_message ((matched_users all_users t).map (fun du => du.id))
              env.convo_members u t)]
         else []) := by
  unfold someones_talking_about_you
  cases hany : (matched_users all_users t).any
      (fun du => !(env.convo_members.contains du.id))
  · have hnex : ¬ ∃ a ∈ matched_users all_users t,
        a.id ∉ env.convo_members := by
      simpa using hany
    by_cases hlen : 0 < (matched_users all_users t).length <;>
      simp [get0, hty, htx, hch, hus, getField, exc_bind_ok, hmt, hlen, hnex,
        catchKE]
  · have hex : ∃ a ∈ matched_users all_users t,
        a.id ∉ env.convo_members := by
      simpa using hany
    have hne : matched_users all_users t ≠ [] := by
      rcases hex with ⟨a, ha, _⟩
      exact fun hnil => by simp [hnil] at ha
    have hlen : 0 < (matched_users all_users t).length :=
      List.length_pos.mpr hne
    simp [get0, hty, htx, hch, hus, getField, exc_bind_ok, hmt, hlen, hex,
      catchKE]

/-- C7: for every well-formed `message` event whose scope is not `Public`,
the mention-notify behavior sends exactly one notification to the configured
notify-channel iff some user whose lowercased "first last" full name occurs
in the lowercased text has an ID absent from the channel membership; if every
matched user is a member, or nobody matches, zero notifications are sent. -/
theorem someones_spec (h : SlackEventHandler) (env : Env) (e : EventMsg)
    (tl : List EventMsg) (mt : String) (all_users : List DirUser)
    (t c u : String) (hty : e.type = some "message") (hmt : mt ≠ "Public")
    (htx : e.text = some t) (hch : e.channel = some c) (hus : e.user = some u) :
    someones_talking_about_you h env (e :: tl) mt all_users =
      Except.ok
        (if (matched_users all_users t).any
            (fun du => !(env.convo_members.contains du.id))
         then [Action.rtmSend h.stay_channel
            (notify_message ((matched_users all_users t).map (fun du => du.id))
              env.convo_members u t)]
         else []) ∧
    ((matched_users all_users t).any
        (fun du => !(env.convo_members.contains du.id)) = true ↔
      ∃ du ∈ matched_users all_users t, du.id ∉ env.convo_members) := by
  refine ⟨someones_eq h env e tl mt all_users t c u hty hmt htx hch hus, ?_⟩
  simp [List.any_eq_true]

/-- Directory entry for the mention-notify witness. -/
def annLee : DirUser :=
  { name := "ann", id := "UANN", first_name := "Ann", last_name := "Lee" }

/-- A private-scope message mentioning Ann Lee (fixture for C7). -/
def eAnn : EventMsg :=
  { type := some "message", channel := some "CPRIV", user := some "USND",
    text := some "ann lee is great", ts := some "2" }

/-- Environment where the channel classifies as `Private` and Ann Lee is
absent from the conversation members (fixture for C7). -/
def envAnn : Env :=
  { im_info_ok := some false, groups_info_ok := some true,
    convo_members := ["UOTHER"], bot_username := "slackbot",
    giphy := fun _ => [], randIdx := 0, randIdx8 := 0 }

theorem someones_spec_witness :
    eAnn.type = some "message" ∧ ("Private" : String) ≠ "Public" ∧
    eAnn.text = some "ann lee is great" ∧ eAnn.channel = some "CPRIV" ∧
    eAnn.user = some "USND" ∧
    (someones_talking_about_you hBase envAnn [eAnn] "Private" [annLee] =
      Except.ok
        (if (matched_users [annLee] "ann lee is great").any
            (fun du => !(envAnn.convo_members.contains du.id))
         then [Action.rtmSend hBase.stay_channel
            (notify_message
              ((matched_users [annLee] "ann lee is great").map
                (fun du => du.id))
              envAnn.convo_members "USND" "ann lee is great")]
         else []) ∧
    ((matched_users [annLee] "ann lee is great").any
        (fun du => !(envAnn.convo_members.contains du.id)) = true ↔
      ∃ du ∈ matched_users [annLee] "ann lee is great",
        du.id ∉ envAnn.convo_members)) :=
  ⟨rfl, by decide, rfl, rfl, rfl,
    someones_spec hBase envAnn eAnn [] "Private" [annLee] "ann lee is great"
      "CPRIV" "USND" rfl (by decide) rfl rfl rfl⟩

theorem random_reply_keyerror (h : SlackEventHandler) (env : Env)
    (e : EventMsg) (tl : List EventMsg) (hty : e.type = some "message")
    (hus : e.user = none) :
    random_reply h env (e :: tl) = Except.error PyErr.keyError := by
  unfold random_reply
  simp [hty, hus, getField, exc_bind_ok, exc_bind_er, catchKE]

/-- Handler with reply and mark-read enabled (fixture for C3). -/
def hReply : SlackEventHandler :=
  { handler_flags := { flagsOff with random_reply_flg := true, mark_read_flg := true },
    run_level := "All", users := some ["U9"], responses := ["ok"],
    stay_channel := none, homophones := none }

/-- A message event whose only missing field is the user (fixture for C3). -/
def eNoUser : EventMsg :=
  { type := some "message", channel := some "C", user := none,
    text := some "<x>", ts := some "1" }

/-- C3 counterexample: with reply and mark-read both enabled and an event
missing only its `user` field, the reply behavior raises `KeyError`, the
loop-level handler swallows it, and the event yields no actions at all —
mark-read was skipped, although invoked alone on the same event it would
have issued a mark call. -/
theorem keyerror_skip_counterexample :
    handle_event hReply envBase [eNoUser] [] = Except.ok [] ∧
    mark_read envBase [eNoUser] (classify_scope envBase) =
      Except.ok [Action.apiMark "im.mark" "C" "1"] :=
  ⟨rfl, rfl⟩

theorem run_steps_split (pre post : List (Except PyErr (List Action)))
    (er : PyErr) (hpre : pre.all is_ok_step = true) :
    run_steps (pre ++ Except.error er :: post) = (collect_ok pre, some er) := by
  induction pre with
  | nil => rfl
  | cons s rest ih =>
    cases s with
    | ok a =>
      have hrest : rest.all is_ok_step = true := by
        simpa [is_ok_step] using hpre
      simp [run_steps, collect_ok, ih hrest]
    | error e2 =>
      simp [is_ok_step] at hpre

theorem seq_steps_five (s1 s2 s3 s4 s5 : Except PyErr (List Action)) :
    (s1 >>= fun a1 => s2 >>= fun a2 => s3 >>= fun a3 => s4 >>= fun a4 =>
      s5 >>= fun a5 => Except.ok (a1 ++ a2 ++ a3 ++ a4 ++ a5)) =
      seq_steps [s1, s2, s3, s4, s5] := by
  cases s1 <;> cases s2 <;> cases s3 <;> cases s4 <;> cases s5 <;>
    simp [seq_steps, exc_bind_ok, exc_bind_er]

theorem run_behaviors_eq_seq (h : SlackEventHandler) (env : Env)
    (event : List EventMsg) (msg_type : String) (all_users : List DirUser) :
    run_behaviors h env event msg_type all_users =
      seq_steps (behavior_steps h env event msg_type all_users) := by
  unfold run_behaviors behavior_steps
  exact seq_steps_five _ _ _ _ _

theorem run_steps_none (steps : List (Except PyErr (List Action)))
    (acts : List Action) (hrs : run_steps steps = (acts, none)) :
    seq_steps steps = Except.ok acts := by
  induction steps generalizing acts with
  | nil =>
    have hacts : acts = ([] : List Action) := by
      cases hrs
      rfl
    rw [hacts]
    rfl
  | cons s rest ih =>
    cases s with
    | error er =>
      simp [run_steps] at hrs
    | ok a =>
      have heq : run_steps (Except.ok a :: rest) =
          (a ++ (run_steps rest).1, (run_steps rest).2) := rfl
      rw [heq, Prod.mk.injEq] at hrs
      obtain ⟨h1, h2⟩ := hrs
      have hrest : run_steps rest = ((run_steps rest).1, none) := by
        rw [← h2]
      have ihh := ih (run_steps rest).1 hrest
      show (Except.ok a >>= fun a =>
        seq_steps rest >>= fun acts => Except.ok (a ++ acts)) = Except.ok acts
      rw [exc_bind_ok, ihh, exc_bind_ok, h1]

/-- `run_behaviors` and the effect trace agree on exception-free
iterations. -/
theorem run_behaviors_trace_ok (h : SlackEventHandler) (env : Env)
    (event : List EventMsg) (msg_type : String) (all_users : List DirUser)
    (acts : List Action)
    (htr : run_behaviors_trace h env event msg_type all_users = (acts, none)) :
    run_behaviors h env event msg_type all_users = Except.ok acts := by
  rw [run_behaviors_eq_seq]
  exact run_steps_none _ _ htr

/-- C3 (amended): if an enabled behavior raises `KeyError` because an
expected event field other than `type` is missing, the error is caught and
logged by the loop-level `except KeyError` handler and the event loop
continues with the remaining polls; but the enabled behaviors after the
failing one are skipped for that event — they issue no calls — while the
calls already issued by the behaviors before the failing one stand. -/
theorem keyerror_skips_remaining (h : SlackEventHandler) (env : Env)
    (e : EventMsg) (tl : List EventMsg) (rest : List (List EventMsg))
    (all_users : List DirUser) (c : String)
    (pre post : List (Except PyErr (List Action)))
    (hch : e.channel = some c)
    (hg : gate h.run_level (classify_scope env) = true)
    (hsplit : behavior_steps h env (e :: tl) (classify_scope env) all_users =
      pre ++ Except.error PyErr.keyError :: post)
    (hpre : pre.all is_ok_step = true) :
    handle_event_trace h env (e :: tl) all_users = (collect_ok pre, none) ∧
    run_loop_trace h env all_users ((e :: tl) :: rest) =
      (match run_loop_trace h env all_users rest with
       | BeginResult.completed later =>
         BeginResult.completed (collect_ok pre :: later)
       | BeginResult.crashed later er =>
         BeginResult.crashed (collect_ok pre :: later) er
       | BeginResult.notConnected => BeginResult.notConnected) := by
  have hsteps : run_behaviors_trace h env (e :: tl) (classify_scope env)
      all_users = (collect_ok pre, some PyErr.keyError) := by
    unfold run_behaviors_trace
    rw [hsplit, run_steps_split pre post PyErr.keyError hpre]
  have h1 : handle_event_trace h env (e :: tl) all_users =
      (collect_ok pre, none) := by
    unfold handle_event_trace
    rw [get_msg_type_ok env e tl c hch]
    simp [hg, hsteps, catch_loop_keyerror_trace]
  refine ⟨h1, ?_⟩
  have h2 : run_loop_trace h env all_users ((e :: tl) :: rest) =
      (match handle_event_trace h env (e :: tl) all_users with
       | (acts, none) =>
         match run_loop_trace h env all_users rest with
         | BeginResult.completed later => BeginResult.completed (acts :: later)
         | BeginResult.crashed later er => BeginResult.crashed (acts :: later) er
         | BeginResult.notConnected => BeginResult.notConnected
       | (acts, some er) => BeginResult.crashed [acts] er) := rfl
  rw [h2, h1]

/-- Handler with mark-read and magic-eight enabled, reply off (fixture for
the C3 witness). -/
def hMarkEight : SlackEventHandler :=
  { handler_flags := { flagsOff with mark_read_flg := true, magic_eight_flg := true },
    run_level := "All", users := some ["U9"], responses := ["ok"],
    stay_channel := none, homophones := none }

/-- A message event with a mention token and a question mark whose only
missing field is the user (fixture for the C3 witness). -/
def eNoUserQ : EventMsg :=
  { type := some "message", channel := some "C", user := none,
    text := some "<x>?", ts := some "1" }

/-- The behavior outcomes preceding the failing magic-eight step on
`eNoUserQ`: reply disabled, mark-read issuing its `im.mark`, mention-notify
disabled (fixture for the C3 witness). -/
def preMarkEight : List (Except PyErr (List Action)) :=
  [Except.ok [], Except.ok [Action.apiMark "im.mark" "C" "1"], Except.ok []]

/-- The behavior outcomes after the failing magic-eight step on `eNoUserQ`:
homophones disabled (fixture for the C3 witness). -/
def postMarkEight : List (Except PyErr (List Action)) :=
  [Except.ok []]

theorem keyerror_skips_remaining_witness :
    eNoUserQ.channel = some "C" ∧
    gate hMarkEight.run_level (classify_scope envBase) = true ∧
    behavior_steps hMarkEight envBase [eNoUserQ] (classify_scope envBase) [] =
      preMarkEight ++ Except.error PyErr.keyError :: postMarkEight ∧
    preMarkEight.all is_ok_step = true ∧
    collect_ok preMarkEight = [Action.apiMark "im.mark" "C" "1"] ∧
    (handle_event_trace hMarkEight envBase [eNoUserQ] [] =
      (collect_ok preMarkEight, none) ∧
    run_loop_trace hMarkEight envBase [] [[eNoUserQ]] =
      (match run_loop_trace hMarkEight envBase [] [] with
       | BeginResult.completed later =>
         BeginResult.completed (collect_ok preMarkEight :: later)
       | BeginResult.crashed later er =>
         BeginResult.crashed (collect_ok preMarkEight :: later) er
       | BeginResult.notConnected => BeginResult.notConnected)) :=
  ⟨rfl, by decide, rfl, rfl, rfl,
    keyerror_skips_remaining hMarkEight envBase eNoUserQ [] [] [] "C"
      preMarkEight postMarkEight rfl (by decide) rfl rfl⟩

theorem homophone_suggest_none (h : SlackEventHandler) (e : EventMsg)
    (tl : List EventMsg) (t : String) (htx : e.text = some t)
    (hh : h.homophones = none) :
    homophone_suggest h (e :: tl) = Except.error PyErr.attributeError := by
  unfold homophone_suggest
  simp [get0, htx, hh, getField, exc_bind_ok, catchKE]

/-- C9: after enabling the homophone behavior and then updating any other
recognized flag, the homophone table is `None` while `homophone_flg` stays
enabled; dispatching the next well-formed in-scope `message` event makes
`homophone_suggest` hit `.keys()` on `None`, raising an `AttributeError` the
loop-level `except KeyError` handler does not catch, so `begin`
terminates. -/
theorem stale_homophone_crash (h : SlackEventHandler) (name : String)
    (v : Bool) (env : Env) (e : EventMsg) (tl : List EventMsg)
    (rest : List (List EventMsg)) (all_users : List DirUser) (c t : String)
    (hn : name ∈ flagNames) (hnh : name ≠ "homophone_flg")
    (hhf : h.handler_flags.homophone_flg = true)
    (h1 : (update_flag h name v).2.handler_flags.random_reply_flg = false)
    (h2 : (update_flag h name v).2.handler_flags.mark_read_flg = false)
    (h3 : (update_flag h name v).2.handler_flags.someones_talking_about_you_flg
      = false)
    (h4 : (update_flag h name v).2.handler_flags.magic_eight_flg = false)
    (hg : gate (update_flag h name v).2.run_level (classify_scope env) = true)
    (_hty : e.type = some "message") (hch : e.channel = some c)
    (htx : e.text = some t) :
    (update_flag h name v).2.homophones = none ∧
    (update_flag h name v).2.handler_flags.homophone_flg = true ∧
    homophone_suggest (update_flag h name v).2 (e :: tl) =
      Except.error PyErr.attributeError ∧
    handle_event (update_flag h name v).2 env (e :: tl) all_users =
      Except.error PyErr.attributeError ∧
    run_loop (update_flag h name v).2 env all_users ((e :: tl) :: rest) =
      BeginResult.crashed [] PyErr.attributeError := by
  have hu := update_flag_other h name v hn hnh
  have hhom : (update_flag h name v).2.homophones = none := by rw [hu]
  have hflg : (update_flag h name v).2.handler_flags.homophone_flg = true := by
    rw [hu]
    exact (setFlag_homophone h.handler_flags name v hnh).trans hhf
  have hs : homophone_suggest (update_flag h name v).2 (e :: tl) =
      Except.error PyErr.attributeError :=
    homophone_suggest_none _ e tl t htx hhom
  have hrb : run_behaviors (update_flag h name v).2 env (e :: tl)
      (classify_scope env) all_users = Except.error PyErr.attributeError := by
    unfold run_behaviors
    simp [h1, h2, h3, h4, hflg, hs, exc_bind_ok, exc_bind_er]
  have hhe : handle_event (update_flag h name v).2 env (e :: tl) all_users =
      Except.error PyErr.attributeError := by
    rw [handle_event_eq _ env e tl all_users c hch, hg]
    simp [hrb, catch_loop_keyerror]
  refine ⟨hhom, hflg, hs, hhe, ?_⟩
  have hrl : run_loop (update_flag h name v).2 env all_users
      ((e :: tl) :: rest) =
      (match handle_event (update_flag h name v).2 env (e :: tl) all_users with
       | Except.ok acts =>
         match run_loop (update_flag h name v).2 env all_users rest with
         | BeginResult.completed later => BeginResult.completed (acts :: later)
         | BeginResult.crashed later er => BeginResult.crashed (acts :: later) er
         | BeginResult.notConnected => BeginResult.notConnected
       | Except.error er => BeginResult.crashed [] er) := rfl
  rw [hrl, hhe]

theorem stale_homophone_crash_witness :
    "set_typing_flg" ∈ flagNames ∧ ("set_typing_flg" : String) ≠ "homophone_flg" ∧
    hHom.handler_flags.homophone_flg = true ∧
    (update_flag hHom "set_typing_flg" true).2.handler_flags.random_reply_flg
      = false ∧
    (update_flag hHom "set_typing_flg" true).2.handler_flags.mark_read_flg
      = false ∧
    (update_flag hHom "set_typing_flg"
      true).2.handler_flags.someones_talking_about_you_flg = false ∧
    (update_flag hHom "set_typing_flg" true).2.handler_flags.magic_eight_flg
      = false ∧
    gate (update_flag hHom "set_typing_flg" true).2.run_level
      (classify_scope envBase) = true ∧
    eBase.type = some "message" ∧ eBase.channel = some "C" ∧
    eBase.text = some "hello" ∧
    ((update_flag hHom "set_typing_flg" true).2.homophones = none ∧
    (update_flag hHom "set_typing_flg" true).2.handler_flags.homophone_flg
      = true ∧
    homophone_suggest (update_flag hHom "set_typing_flg" true).2 [eBase] =
      Except.error PyErr.attributeError ∧
    handle_event (update_flag hHom "set_typing_flg" true).2 envBase [eBase] []
      = Except.error PyErr.attributeError ∧
    run_loop (update_flag hHom "set_typing_flg" true).2 envBase [] [[eBase]] =
      BeginResult.crashed [] PyErr.attributeError) :=
  ⟨by decide, by decide, rfl, by decide, by decide, by decide, by decide,
    by decide, rfl, rfl, rfl,
    stale_homophone_crash hHom "set_typing_flg" true envBase eBase [] [] []
      "C" "hello" (by decide) (by decide) rfl (by decide) (by decide)
      (by decide) (by decide) (by decide) rfl rfl rfl⟩

theorem random_reply_none_users (h : SlackEventHandler) (env : Env)
    (e : EventMsg) (tl : List EventMsg) (u : String) (hu : h.users = none)
    (hty : e.type = some "message") (hus : e.user = some u) :
    random_reply h env (e :: tl) = Except.error PyErr.typeError := by
  unfold random_reply
  simp [hty, hus, hu, getField, pyMem, exc_bind_ok, exc_bind_er, catchKE]

theorem magic_eight_none_users (h : SlackEventHandler) (env : Env)
    (e : EventMsg) (tl : List EventMsg) (u : String) (hu : h.users = none)
    (hty : e.type = some "message") (hus : e.user = some u) :
    magic_eight h env (e :: tl) = Except.error PyErr.typeError := by
  unfold magic_eight
  simp [hty, hus, hu, getField, pyMem, exc_bind_ok, exc_bind_er, catchKE]

theorem someones_isOk (h : SlackEventHandler) (env : Env) (e : EventMsg)
    (tl : List EventMsg) (mt : String) (all_users : List DirUser)
    (t c u : String) (hty : e.type = some "message") (htx : e.text = some t)
    (hch : e.channel = some c) (hus : e.user = some u) :
    ∃ l, someones_talking_about_you h env (e :: tl) mt all_users =
      Except.ok l := by
  by_cases hmt : mt = "Public"
  · refine ⟨[], ?_⟩
    subst hmt
    unfold someones_talking_about_you
    simp [get0, hty, getField, exc_bind_ok, catchKE]
  · exact ⟨_, someones_eq h env e tl mt all_users t c u hty hmt htx hch hus⟩

/-- C10: with the default allow-list (`users = None`) and reply or
magic-eight enabled, every well-formed in-scope `message` event makes the
membership test `event[0]['user'] in self.users` raise a `TypeError` that no
handler catches, terminating the event loop. -/
theorem none_users_typeerror (h : SlackEventHandler) (env : Env)
    (e : EventMsg) (tl : List EventMsg) (rest : List (List EventMsg))
    (all_users : List DirUser) (c u t ts : String)
    (hu : h.users = none)
    (hflag : h.handler_flags.random_reply_flg = true ∨
      h.handler_flags.magic_eight_flg = true)
    (hg : gate h.run_level (classify_scope env) = true)
    (hty : e.type = some "message") (hus : e.user = some u)
    (htx : e.text = some t) (hch : e.channel = some c) (hts : e.ts = some ts) :
    handle_event h env (e :: tl) all_users = Except.error PyErr.typeError ∧
    run_loop h env all_users ((e :: tl) :: rest) =
      BeginResult.crashed [] PyErr.typeError := by
  have hrb : run_behaviors h env (e :: tl) (classify_scope env) all_users =
      Except.error PyErr.typeError := by
    by_cases hrr : h.handler_flags.random_reply_flg = true
    · unfold run_behaviors
      simp [hrr, random_reply_none_users h env e tl u hu hty hus, exc_bind_er]
    · have hrr2 : h.handler_flags.random_reply_flg = false := by
        simpa using hrr
      have hm8 : h.handler_flags.magic_eight_flg = true := by
        rcases hflag with hf | hf
        · exact absurd hf hrr
        · exact hf
      obtain ⟨l2, hl2⟩ :
          ∃ l, (if h.handler_flags.mark_read_flg then
              mark_read env (e :: tl) (classify_scope env)
            else Except.ok []) = Except.ok l := by
        by_cases hm : h.handler_flags.mark_read_flg = true
        · exact ⟨_, by
            rw [if_pos hm, mark_read_eq env e tl (classify_scope env) t c ts
              hty htx hch hts]⟩
        · exact ⟨[], by rw [if_neg hm]⟩
      obtain ⟨l3, hl3⟩ :
          ∃ l, (if h.handler_flags.someones_talking_about_you_flg then
              someones_talking_about_you h env (e :: tl) (classify_scope env)
                all_users
            else Except.ok []) = Except.ok l := by
        by_cases hm : h.handler_flags.someones_talking_about_you_flg = true
        · obtain ⟨l, hl⟩ := someones_isOk h env e tl (classify_scope env)
            all_users t c u hty htx hch hus
          exact ⟨l, by rw [if_pos hm, hl]⟩
        · exact ⟨[], by rw [if_neg hm]⟩
      unfold run_behaviors
      rw [hl2, hl3]
      simp [hrr2, hm8, magic_eight_none_users h env e tl u hu hty hus,
        exc_bind_ok, exc_bind_er]
  have hhe : handle_event h env (e :: tl) all_users =
      Except.error PyErr.typeError := by
    rw [handle_event_eq h env e tl all_users c hch, hg]
    simp [hrb, catch_loop_keyerror]
  refine ⟨hhe, ?_⟩
  have hrl : run_loop h env all_users ((e :: tl) :: rest) =
      (match handle_event h env (e :: tl) all_users with
       | Except.ok acts =>
         match run_loop h env all_users rest with
         | BeginResult.completed later => BeginResult.completed (acts :: later)
         | BeginResult.crashed later er => BeginResult.crashed (acts :: later) er
         | BeginResult.notConnected => BeginResult.notConnected
       | Except.error er => BeginResult.crashed [] er) := rfl
  rw [hrl, hhe]

/-- Handler constructed with the default allow-list and reply enabled
(fixture for C10). -/
def hNoUsers : SlackEventHandler :=
  { handler_flags := { flagsOff with random_reply_flg := true },
    run_level := "All", users := none, responses := ["ok"],
    stay_channel := none, homophones := none }

theorem none_users_typeerror_witness :
    hNoUsers.users = none ∧
    (hNoUsers.handler_flags.random_reply_flg = true ∨
      hNoUsers.handler_flags.magic_eight_flg = true) ∧
    gate hNoUsers.run_level (classify_scope envBase) = true ∧
    eBase.type = some "message" ∧ eBase.user = some "U1" ∧
    eBase.text = some "hello" ∧ eBase.channel = some "C" ∧
    eBase.ts = some "1" ∧
    (handle_event hNoUsers envBase [eBase] [] =
      Except.error PyErr.typeError ∧
    run_loop hNoUsers envBase [] [[eBase]] =
      BeginResult.crashed [] PyErr.typeError) :=
  ⟨rfl, Or.inl rfl, by decide, rfl, rfl, rfl, rfl, rfl,
    none_users_typeerror hNoUsers envBase eBase [] [] [] "C" "U1" "hello" "1"
      rfl (Or.inl rfl) (by decide) rfl rfl rfl rfl rfl⟩

end UselessSlackUtils
